import Mathlib

/-!
Verification of the utility module of the esri-leaflet repository
(src/Util.js) via a shallow embedding in Lean 4.

Modelling conventions:
- JS numbers are modelled as rationals (no floating point is exercised by
  the properties under scrutiny; the only not-a-number artefact in the code
  is the literal string "NaN" used by ArcGIS Server as a sentinel, which is
  modelled by a dedicated constructor).
- JS `undefined`/`null` results are modelled with `Option`; code paths that
  throw are modelled with `Except`, the error case standing for the thrown
  exception.
- JS truthiness of strings (`""` is falsy) is modelled explicitly by
  `truthyStr`.
- Strings manipulated character by character are modelled as `List Char`.
-/

set_option autoImplicit false

namespace EsriLeaflet

/-- JS truthiness of an optional string: `undefined` and the empty string
are falsy, every other string is truthy. -/
def truthyStr : Option String → Bool
  | none => false
  | some s => s != ""

/-- A coordinate value appearing in an ArcGIS extent: either an actual
number or the literal string "NaN" that ArcGIS Server uses to mark a null
geometry. -/
inductive Coord where
  | num (q : ℚ)
  | nanStr
  deriving DecidableEq

/-- Leaflet LatLng: a latitude/longitude pair. -/
structure LatLng where
  lat : ℚ
  lng : ℚ
  deriving DecidableEq

/-- The Leaflet latLng factory applied to coordinate values coming from an
extent. Leaflet throws "Invalid LatLng object" when a coordinate is NaN
(and the string "NaN" coerces to the NaN number), modelled by the error
case. -/
def latLng : Coord → Coord → Except String LatLng
  | Coord.num lat, Coord.num lng => Except.ok ⟨lat, lng⟩
  | _, _ => Except.error "Invalid LatLng object"

/-- The Leaflet latLng factory applied to plain finite numbers (as in the
attribution code, where bbox entries are numbers); it cannot throw. -/
def latLngNum (lat lng : ℚ) : LatLng := ⟨lat, lng⟩

/-- Leaflet LatLngBounds: a south-west / north-east corner pair. The
factory below maintains the invariant sw ≤ ne componentwise. -/
structure LatLngBounds where
  sw : LatLng
  ne : LatLng
  deriving DecidableEq

/-- The Leaflet latLngBounds factory on two corners: the constructor
extends an empty bounds with each corner, so the stored south-west corner
takes the componentwise minimum and the north-east corner the maximum. -/
def latLngBounds (corner1 corner2 : LatLng) : LatLngBounds :=
  ⟨⟨min corner1.lat corner2.lat, min corner1.lng corner2.lng⟩,
   ⟨max corner1.lat corner2.lat, max corner1.lng corner2.lng⟩⟩

/-- Leaflet LatLngBounds.intersects: the two rectangles overlap (touching
edges count) in both the latitude and the longitude ranges. -/
def intersects (a b : LatLngBounds) : Bool :=
  decide (b.sw.lat ≤ a.ne.lat) && decide (a.sw.lat ≤ b.ne.lat) &&
  decide (b.sw.lng ≤ a.ne.lng) && decide (a.sw.lng ≤ b.ne.lng)

/-- ArcGIS spatial reference record. -/
structure SpatialReference where
  wkid : ℤ
  deriving DecidableEq

/-- ArcGIS extent: a flat min/max coordinate record, with an optional
spatial reference. -/
structure Extent where
  xmin : Coord
  ymin : Coord
  xmax : Coord
  ymax : Coord
  spatialReference : Option SpatialReference
  deriving DecidableEq

/-- extentToBounds from src/Util.js: "NaN" coordinates from ArcGIS Server
indicate a null geometry; when none of the four edges is the string "NaN"
the extent is converted to a LatLngBounds through the latLng factory,
otherwise null (modelled as none) is returned. The Except layer records
that nothing on either path throws. -/
def extentToBounds (extent : Extent) : Except String (Option LatLngBounds) :=
  if extent.xmin ≠ Coord.nanStr ∧ extent.ymin ≠ Coord.nanStr ∧
     extent.xmax ≠ Coord.nanStr ∧ extent.ymax ≠ Coord.nanStr then do
    let sw ← latLng extent.ymin extent.xmin
    let ne ← latLng extent.ymax extent.xmax
    Except.ok (some (latLngBounds sw ne))
  else
    Except.ok none

/-- boundsToExtent from src/Util.js (the leading latLngBounds(bounds) call
is the identity on an input that already is a LatLngBounds). -/
def boundsToExtent (bounds : LatLngBounds) : Extent :=
  { xmin := Coord.num bounds.sw.lng
    ymin := Coord.num bounds.sw.lat
    xmax := Coord.num bounds.ne.lng
    ymax := Coord.num bounds.ne.lat
    spatialReference := some ⟨4326⟩ }

/-- The /^(OBJECTID|FID|OID|ID)$/i test from src/Util.js: a
case-insensitive whole-string match against the four conventional
identifier names. -/
def knownFieldNames (name : String) : Bool :=
  let u := name.data.map Char.toUpper
  (u == "OBJECTID".data) || (u == "FID".data) || (u == "OID".data) || (u == "ID".data)

/-- ArcGIS field metadata entry. -/
structure Field where
  name : String
  type : String
  deriving DecidableEq

/-- A raw ArcGIS feature; the claims only inspect its attribute keys (in
object iteration order), so the attribute values are not modelled. -/
structure ArcFeature where
  attributes : List String
  deriving DecidableEq

/-- An ArcGIS query response, as read by the utility module. -/
structure Response where
  objectIdFieldName : Option String
  fields : Option (List Field)
  features : Option (List ArcFeature)
  results : Option (List ArcFeature)
  deriving DecidableEq

/-- First loop of findIdAttributeFromResponse: the name of the first field
whose type is esriFieldTypeOID. -/
def firstOIDField : List Field → Option String
  | [] => none
  | f :: rest => if f.type = "esriFieldTypeOID" then some f.name else firstOIDField rest

/-- Second loop of findIdAttributeFromResponse: the name of the first
field whose name matches the well-known identifier pattern. -/
def firstKnownNameField : List Field → Option String
  | [] => none
  | f :: rest => if knownFieldNames f.name then some f.name else firstKnownNameField rest

/-- findIdAttributeFromResponse from src/Util.js: prefer the truthy
objectIdFieldName, else scan the field metadata first by type then by
well-known name; the second loop only overwrites the result when it finds
a match. -/
def _findIdAttributeFromResponse (response : Response) : Option String :=
  if truthyStr response.objectIdFieldName then
    response.objectIdFieldName
  else
    match response.fields with
    | some fields =>
        let result := firstOIDField fields
        if !(truthyStr result) then
          match firstKnownNameField fields with
          | some name => some name
          | none => result
        else
          result
    | none => none

/-- findIdAttributeFromFeature from src/Util.js: the first attribute key
of the feature matching the well-known identifier pattern. -/
def _findIdAttributeFromFeature (feature : ArcFeature) : Option String :=
  feature.attributes.find? knownFieldNames

/-- A GeoJSON feature as produced by the external
arcgis-to-geojson-utils converter. The converter is an external
collaborator of the module (out of scope for its spec), so its output is
modelled abstractly as the pair of its two inputs; everything the claims
state about responseToFeatureCollection concerns which inputs the
converter receives and in which order. -/
structure GeoJSONFeature where
  source : ArcFeature
  idAttr : Option String
  deriving DecidableEq

/-- arcgisToGeoJSON wrapper from src/Util.js (delegates to the external
converter, modelled abstractly). -/
def arcgisToGeoJSON (arcgis : ArcFeature) (idAttr : Option String) : GeoJSONFeature :=
  ⟨arcgis, idAttr⟩

/-- A GeoJSON FeatureCollection as assembled by the module. -/
structure FeatureCollection where
  type : String
  features : List GeoJSONFeature
  deriving DecidableEq

/-- JS a || b on optional feature lists: an undefined features key falls
back to results (a present empty array is truthy and is kept). -/
def jsOrList (a b : Option (List ArcFeature)) : Option (List ArcFeature) :=
  match a with
  | some l => some l
  | none => b

/-- JS a || b on optional strings, with string truthiness. -/
def jsOrStr (a b : Option String) : Option String :=
  if truthyStr a then a else b

/-- The body of the loop of responseToFeatureCollection: convert one raw
feature, with the collection-level id attribute when it is truthy and the
per-feature scan otherwise. The collection-level value is recomputed here
for each feature; it is pure, so this equals the source, which computes it
once before the loop. -/
def perFeatureConv (response : Response) (idAttribute : Option String) (f : ArcFeature) : GeoJSONFeature :=
  let objectIdField := if truthyStr idAttribute then idAttribute
                       else _findIdAttributeFromResponse response
  arcgisToGeoJSON f (jsOrStr objectIdField (_findIdAttributeFromFeature f))

/-- responseToFeatureCollection from src/Util.js. Reading
(response.features || response.results).length throws a TypeError when
both keys are absent (the error case). The source loop runs from the last
index down to 0 pushing onto the output array, which is the map of the
loop body over the reversed list; the `if (count)` guard skips the loop
for an empty list. -/
def responseToFeatureCollection (response : Response) (idAttribute : Option String) :
    Except String FeatureCollection :=
  match jsOrList response.features response.results with
  | none => Except.error "TypeError: cannot read property length of undefined"
  | some features =>
      if features.length ≠ 0 then
        Except.ok ⟨"FeatureCollection", features.reverse.map (perFeatureConv response idAttribute)⟩
      else
        Except.ok ⟨"FeatureCollection", []⟩

/-- Leaflet Util.trim as used by cleanUrl: strip leading and trailing
whitespace, keeping interior characters. -/
def jsTrim (s : List Char) : List Char :=
  (s.dropWhile Char.isWhitespace).rdropWhile Char.isWhitespace

/-- cleanUrl from src/Util.js, on character lists: trim surrounding
whitespace, then add a trailing slash when the last character is not
already a slash (an empty trimmed url also gets the slash, as indexing
past the end yields undefined in JS). -/
def cleanUrlChars (url : List Char) : List Char :=
  let u := jsTrim url
  if u.getLast? ≠ some '/' then u ++ ['/'] else u

/-- cleanUrl lifted to strings. -/
def cleanUrl (url : String) : String :=
  ⟨cleanUrlChars url.data⟩

/-- geojsonTypeToArcGIS from src/Util.js: the switch over the six GeoJSON
geometry type names; every other input leaves the result undefined. -/
def geojsonTypeToArcGIS (geoJsonType : String) : Option String :=
  if geoJsonType = "Point" then some "esriGeometryPoint"
  else if geoJsonType = "MultiPoint" then some "esriGeometryMultipoint"
  else if geoJsonType = "LineString" then some "esriGeometryPolyline"
  else if geoJsonType = "MultiLineString" then some "esriGeometryPolyline"
  else if geoJsonType = "Polygon" then some "esriGeometryPolygon"
  else if geoJsonType = "MultiPolygon" then some "esriGeometryPolygon"
  else none

/-- Nested coordinate data of a GeoJSON geometry (a number tree); the
module never inspects it, it is carried through to the external
converter. -/
inductive Coords where
  | num (q : ℚ)
  | arr (l : List Coords)

/-- A raw GeoJSON geometry object: a type tag plus coordinate data. -/
structure GeoJSONGeometry where
  type : String
  coordinates : Coords

/-- An ArcGIS geometry as produced by the external geojson-to-arcgis
converter, modelled abstractly as its inputs (see GeoJSONFeature). -/
structure ArcGISGeometry where
  fromGeoJSON : GeoJSONGeometry
  idAttr : Option String

/-- geojsonToArcGIS wrapper from src/Util.js (delegates to the external
converter, modelled abstractly). -/
def geojsonToArcGIS (geojson : GeoJSONGeometry) (idAttr : Option String) : ArcGISGeometry :=
  ⟨geojson, idAttr⟩

/-- The geometry slot of the query parameter pair built by setGeometry:
either an ArcGIS extent (for bounds input) or a converted geometry. -/
inductive ParamGeometry where
  | extent (e : Extent)
  | arc (g : ArcGISGeometry)

/-- The {geometry, geometryType} query parameter pair. -/
structure GeomParams where
  geometry : ParamGeometry
  geometryType : Option String

/-- Outcome of setGeometry: either the parameter pair, or the
warn-and-return-undefined path. -/
inductive SetGeometryResult where
  | ok (params : GeomParams)
  | warnedUndefined

/-- The polymorphic input accepted by setGeometry, one constructor per
duck-typing test of the source: a LatLngBounds, a marker (getLatLng), a
bare LatLng, an L.GeoJSON layer (whose first layer carries a feature with
the given geometry), a vector layer (whose toGeoJSON yields a Feature
with the given geometry), a raw GeoJSON Feature object, or a raw GeoJSON
geometry object (of arbitrary type tag, covering unrecognized shapes). -/
inductive GeomInput where
  | bounds (b : LatLngBounds)
  | marker (p : LatLng)
  | latlngPoint (p : LatLng)
  | geojsonLayer (g : GeoJSONGeometry)
  | vectorLayer (g : GeoJSONGeometry)
  | featureObj (g : GeoJSONGeometry)
  | geomObj (g : GeoJSONGeometry)

/-- The tail of setGeometry, reached once the input has been normalized
to a raw GeoJSON geometry: accept exactly Point, LineString, Polygon and
MultiPolygon, and warn and return undefined otherwise. In the L.GeoJSON
branch the source also assigns the params before this check, but on the
rejecting path that assignment is discarded by the undefined return, and
on the accepting path the final assignment recomputes the same values. -/
def finishGeoJSON (geometry : GeoJSONGeometry) : SetGeometryResult :=
  if geometry.type = "Point" ∨ geometry.type = "LineString" ∨
     geometry.type = "Polygon" ∨ geometry.type = "MultiPolygon" then
    SetGeometryResult.ok ⟨ParamGeometry.arc (geojsonToArcGIS geometry none),
                          geojsonTypeToArcGIS geometry.type⟩
  else
    SetGeometryResult.warnedUndefined

/-- The GeoJSON Point built from a LatLng (coordinates [lng, lat]). -/
def pointGeoJSON (p : LatLng) : GeoJSONGeometry :=
  ⟨"Point", Coords.arr [Coords.num p.lng, Coords.num p.lat]⟩

/-- setGeometry from src/Util.js: bounds convert to an extent envelope
and return immediately; markers and LatLngs become GeoJSON Points;
layers and Feature objects are unwrapped to their geometry; everything
then flows into the final four-type check. -/
def _setGeometry : GeomInput → SetGeometryResult
  | GeomInput.bounds b =>
      SetGeometryResult.ok ⟨ParamGeometry.extent (boundsToExtent b), some "esriGeometryEnvelope"⟩
  | GeomInput.marker p => finishGeoJSON (pointGeoJSON p)
  | GeomInput.latlngPoint p => finishGeoJSON (pointGeoJSON p)
  | GeomInput.geojsonLayer g => finishGeoJSON g
  | GeomInput.vectorLayer g => finishGeoJSON g
  | GeomInput.featureObj g => finishGeoJSON g
  | GeomInput.geomObj g => finishGeoJSON g

/-- The inputs on which setGeometry actually produces a parameter pair:
bounds and point-like inputs always do; layer, Feature and raw geometry
inputs do exactly when the underlying geometry type is Point, LineString,
Polygon or MultiPolygon. This is the amended recognition predicate
(stated from the code); the spec additionally counted every layer and
every Feature as recognized, which the code does not honour. -/
def acceptedGeometryInput : GeomInput → Bool
  | GeomInput.bounds _ => true
  | GeomInput.marker _ => true
  | GeomInput.latlngPoint _ => true
  | GeomInput.geojsonLayer g => decide (g.type = "Point" ∨ g.type = "LineString" ∨
      g.type = "Polygon" ∨ g.type = "MultiPolygon")
  | GeomInput.vectorLayer g => decide (g.type = "Point" ∨ g.type = "LineString" ∨
      g.type = "Polygon" ∨ g.type = "MultiPolygon")
  | GeomInput.featureObj g => decide (g.type = "Point" ∨ g.type = "LineString" ∨
      g.type = "Polygon" ∨ g.type = "MultiPolygon")
  | GeomInput.geomObj g => decide (g.type = "Point" ∨ g.type = "LineString" ∨
      g.type = "Polygon" ∨ g.type = "MultiPolygon")

/-- An attribution record cached on the map by the attribution fetch. -/
structure Attribution where
  attribution : List Char
  score : ℚ
  bounds : LatLngBounds
  minZoom : ℚ
  maxZoom : ℚ

/-- Leaflet Util.wrapNum: bring x into [mn, mx) by modular arithmetic
(the JS double-modulo is the floor-mod for a positive range width), with
mx itself kept when includeMax is set. -/
def wrapNum (x mn mx : ℚ) (includeMax : Bool) : ℚ :=
  let d := mx - mn
  if x = mx ∧ includeMax = true then x
  else (x - mn) - d * ⌊(x - mn) / d⌋ + mn

/-- Leaflet LatLng.wrap on the Earth CRS: wrap the longitude into
[-180, 180] (180 included), latitude untouched. -/
def wrapLatLng (p : LatLng) : LatLng :=
  ⟨p.lat, wrapNum p.lng (-180) 180 true⟩

/-- JS newAttributions.match(text) in the deduplication check: for the
literal attribution texts at hand this is a substring test (the spec
itself reads it as an exact substring check). -/
def jsMatch (text s : List Char) : Bool :=
  decide (text <:+: s)

/-- The attribution-building loop of updateMapAttribution: walk the
cached records, appending ", " plus the record text whenever the text is
not yet a substring of the string built so far, the record bounds
intersect the wrapped view bounds, and the current zoom lies inside the
record zoom range. -/
def attributionsString (oldAttributions : List Attribution)
    (wrappedBounds : LatLngBounds) (zoom : ℚ) : List Char :=
  oldAttributions.foldl
    (fun newAttributions attribution =>
      if (!(jsMatch attribution.attribution newAttributions)) &&
         intersects attribution.bounds wrappedBounds &&
         decide (attribution.minZoom ≤ zoom) && decide (zoom ≤ attribution.maxZoom) then
        newAttributions ++ (',' :: ' ' :: attribution.attribution)
      else
        newAttributions)
    []

/-- The slice of Leaflet map state read and written by the attribution
routines: the presence of an attribution control, the current view bounds
and zoom, the cached attribution records, and the text last written into
the attribution DOM element. -/
structure MapState where
  hasAttributionControl : Bool
  bounds : LatLngBounds
  zoom : ℚ
  esriAttributions : Option (List Attribution)
  attributionHTML : List Char

/-- The wrapped view bounds computed by updateMapAttribution from the map
bounds corners. -/
def wrappedBoundsOf (m : MapState) : LatLngBounds :=
  latLngBounds (wrapLatLng m.bounds.sw) (wrapLatLng m.bounds.ne)

/-- updateMapAttribution from src/Util.js, as the attribution string it
computes: none when the guard (attribution control present and a cached
attribution list) fails and nothing happens; otherwise the concatenated
string with its first two characters (the leading ", ") removed, which is
written into the DOM element and fired with the attributionupdated
event. -/
def _updateMapAttribution (m : MapState) : Option (List Char) :=
  match m.esriAttributions with
  | some oldAttributions =>
      if m.hasAttributionControl then
        some ((attributionsString oldAttributions (wrappedBoundsOf m) m.zoom).drop 2)
      else
        none
  | none => none

/-- updateMapAttribution as a state transformer: record the computed
string in the attribution DOM slot when the guard passes. -/
def _updateMapAttributionState (m : MapState) : MapState :=
  match _updateMapAttribution m with
  | some s => ⟨m.hasAttributionControl, m.bounds, m.zoom, m.esriAttributions, s⟩
  | none => m

/-- One coverage area of the attribution payload: bbox entries in order
[south, west, north, east], a score and a zoom range. -/
structure CoverageArea where
  bbox0 : ℚ
  bbox1 : ℚ
  bbox2 : ℚ
  bbox3 : ℚ
  score : ℚ
  zoomMin : ℚ
  zoomMax : ℚ

/-- One contributor of the attribution payload. -/
structure Contributor where
  attribution : List Char
  coverageAreas : List CoverageArea

/-- The attributions payload delivered to the jsonp callback. -/
structure AttributionsResponse where
  contributors : List Contributor

/-- The attribution record built for one contributor and coverage area in
the getAttributionData callback. -/
def coverageRecord (contributor : Contributor) (coverageArea : CoverageArea) : Attribution :=
  ⟨contributor.attribution,
   coverageArea.score,
   latLngBounds (latLngNum coverageArea.bbox0 coverageArea.bbox1)
                (latLngNum coverageArea.bbox2 coverageArea.bbox3),
   coverageArea.zoomMin,
   coverageArea.zoomMax⟩

/-- The callback that getAttributionData from src/Util.js hands to the
jsonp request (jsonp lives in Request.js and merely invokes it with an
error-or-payload outcome). A truthy error returns early, before the map
attribution state is touched; on success the flattened coverage records
are sorted by descending score (a stable sort, as Array.prototype.sort
is), stored on the map, and updateMapAttribution runs. -/
def _getAttributionDataCallback (error : Bool) (attributions : AttributionsResponse)
    (map : MapState) : MapState :=
  if error then map
  else
    let recs := attributions.contributors.flatMap
      (fun contributor => contributor.coverageAreas.map (coverageRecord contributor))
    let sorted := recs.mergeSort (fun a b => b.score ≤ a.score)
    _updateMapAttributionState
      ⟨map.hasAttributionControl, map.bounds, map.zoom, some sorted, map.attributionHTML⟩

/-! ## Helper lemmas -/

lemma coord_ne_nan (c : Coord) (h : c ≠ Coord.nanStr) : ∃ q, c = Coord.num q := by
  cases c with
  | num q => exact ⟨q, rfl⟩
  | nanStr => exact absurd rfl h

/-! ## C1: extentToBounds on the NaN sentinel -/

/-- C1 counterexample: an extent with a single "NaN" edge (and three
numeric edges) is not the all-"NaN" input, yet extentToBounds returns
null for it rather than a bounds object, contradicting the claim that
every extent other than the all-"NaN" one converts to a bounds whose
corners are (ymin, xmin) and (ymax, xmax). -/
theorem extentToBounds_oneNaN_counterexample :
    extentToBounds ⟨Coord.nanStr, Coord.num 0, Coord.num 1, Coord.num 1, none⟩ =
      Except.ok none := rfl

/-- C1 (amended): extentToBounds returns null whenever at least one of the
four extent edges is the "NaN" sentinel (so in particular on the
all-"NaN" input); on an extent whose edges are all numeric it returns the
bounds built by the latLngBounds factory on corners (ymin, xmin) and
(ymax, xmax), which are exactly the south-west and north-east corners
when ymin ≤ ymax and xmin ≤ xmax; and it never throws on any input. -/
theorem extentToBounds_cases :
    (∀ e : Extent,
      (e.xmin = Coord.nanStr ∨ e.ymin = Coord.nanStr ∨
       e.xmax = Coord.nanStr ∨ e.ymax = Coord.nanStr) →
      extentToBounds e = Except.ok none)
    ∧ (∀ (xmin ymin xmax ymax : ℚ) (sr : Option SpatialReference),
        extentToBounds ⟨Coord.num xmin, Coord.num ymin, Coord.num xmax, Coord.num ymax, sr⟩ =
          Except.ok (some (latLngBounds ⟨ymin, xmin⟩ ⟨ymax, xmax⟩)))
    ∧ (∀ (xmin ymin xmax ymax : ℚ) (sr : Option SpatialReference),
        ymin ≤ ymax → xmin ≤ xmax →
        extentToBounds ⟨Coord.num xmin, Coord.num ymin, Coord.num xmax, Coord.num ymax, sr⟩ =
          Except.ok (some ⟨⟨ymin, xmin⟩, ⟨ymax, xmax⟩⟩))
    ∧ (∀ e : Extent, ∃ v, extentToBounds e = Except.ok v) := by
  have hnum : ∀ (xmin ymin xmax ymax : ℚ) (sr : Option SpatialReference),
      extentToBounds ⟨Coord.num xmin, Coord.num ymin, Coord.num xmax, Coord.num ymax, sr⟩ =
        Except.ok (some (latLngBounds ⟨ymin, xmin⟩ ⟨ymax, xmax⟩)) := by
    intro xmin ymin xmax ymax sr
    simp only [extentToBounds]
    rw [if_pos]
    · rfl
    · exact ⟨by simp, by simp, by simp, by simp⟩
  refine ⟨?_, hnum, ?_, ?_⟩
  · intro e h
    simp only [extentToBounds]
    rw [if_neg]
    rcases h with h | h | h | h <;> simp [h]
  · intro xmin ymin xmax ymax sr h1 h2
    rw [hnum xmin ymin xmax ymax sr]
    simp only [latLngBounds]
    rw [min_eq_left h1, min_eq_left h2, max_eq_right h1, max_eq_right h2]
  · intro e
    rcases e with ⟨x1, y1, x2, y2, sr⟩
    by_cases h : x1 ≠ Coord.nanStr ∧ y1 ≠ Coord.nanStr ∧ x2 ≠ Coord.nanStr ∧ y2 ≠ Coord.nanStr
    · obtain ⟨h1, h2, h3, h4⟩ := h
      obtain ⟨q1, e1⟩ := coord_ne_nan _ h1
      obtain ⟨q2, e2⟩ := coord_ne_nan _ h2
      obtain ⟨q3, e3⟩ := coord_ne_nan _ h3
      obtain ⟨q4, e4⟩ := coord_ne_nan _ h4
      subst e1; subst e2; subst e3; subst e4
      exact ⟨_, hnum q1 q2 q3 q4 sr⟩
    · refine ⟨none, ?_⟩
      simp only [extentToBounds]
      rw [if_neg h]

/-- C1 witness: the amended theorem at concrete inputs. -/
theorem extentToBounds_cases_witness :
    extentToBounds ⟨Coord.nanStr, Coord.nanStr, Coord.nanStr, Coord.nanStr, none⟩ =
      Except.ok none
    ∧ extentToBounds ⟨Coord.num 1, Coord.num 2, Coord.num 3, Coord.num 4, none⟩ =
        Except.ok (some ⟨⟨2, 1⟩, ⟨4, 3⟩⟩) :=
  ⟨extentToBounds_cases.1 _ (Or.inl rfl),
   extentToBounds_cases.2.2.1 1 2 3 4 none (by decide) (by decide)⟩

/-! ## C2: boundsToExtent then extentToBounds round-trips -/

/-- C2: for every Leaflet bounds (the latLngBounds factory guarantees the
south-west corner is componentwise below the north-east corner),
converting to an ArcGIS extent and back yields a bounds object with the
same corner coordinates. -/
theorem extentToBounds_boundsToExtent_id (B : LatLngBounds)
    (hlat : B.sw.lat ≤ B.ne.lat) (hlng : B.sw.lng ≤ B.ne.lng) :
    extentToBounds (boundsToExtent B) = Except.ok (some B) := by
  rcases B with ⟨⟨a, b⟩, ⟨c, d⟩⟩
  simp only at hlat hlng
  simp only [boundsToExtent, extentToBounds]
  rw [if_pos]
  · show Except.ok (some (latLngBounds ⟨a, b⟩ ⟨c, d⟩)) =
      Except.ok (some (⟨⟨a, b⟩, ⟨c, d⟩⟩ : LatLngBounds))
    simp only [latLngBounds]
    rw [min_eq_left hlat, min_eq_left hlng, max_eq_right hlat, max_eq_right hlng]
  · exact ⟨by simp, by simp, by simp, by simp⟩

/-- C2 witness: the round-trip at a concrete bounds value. -/
theorem extentToBounds_boundsToExtent_id_witness :
    extentToBounds (boundsToExtent ⟨⟨0, 0⟩, ⟨1, 1⟩⟩) = Except.ok (some ⟨⟨0, 0⟩, ⟨1, 1⟩⟩) :=
  extentToBounds_boundsToExtent_id ⟨⟨0, 0⟩, ⟨1, 1⟩⟩ (by decide) (by decide)

/-! ## C6: geojsonTypeToArcGIS is a fixed six-entry map -/

/-- C6: geojsonTypeToArcGIS maps exactly the six GeoJSON type names to
their esri geometry types (with the two Multi line/polygon collapses) and
returns undefined on every other string. -/
theorem geojsonTypeToArcGIS_spec :
    geojsonTypeToArcGIS "Point" = some "esriGeometryPoint"
    ∧ geojsonTypeToArcGIS "MultiPoint" = some "esriGeometryMultipoint"
    ∧ geojsonTypeToArcGIS "LineString" = some "esriGeometryPolyline"
    ∧ geojsonTypeToArcGIS "MultiLineString" = some "esriGeometryPolyline"
    ∧ geojsonTypeToArcGIS "Polygon" = some "esriGeometryPolygon"
    ∧ geojsonTypeToArcGIS "MultiPolygon" = some "esriGeometryPolygon"
    ∧ ∀ t : String, t ≠ "Point" → t ≠ "MultiPoint" → t ≠ "LineString" →
        t ≠ "MultiLineString" → t ≠ "Polygon" → t ≠ "MultiPolygon" →
        geojsonTypeToArcGIS t = none := by
  refine ⟨by decide, by decide, by decide, by decide, by decide, by decide, ?_⟩
  intro t h1 h2 h3 h4 h5 h6
  simp only [geojsonTypeToArcGIS, if_neg h1, if_neg h2, if_neg h3, if_neg h4, if_neg h5,
    if_neg h6]

/-- C6 witness: an unrecognized type name yields undefined. -/
theorem geojsonTypeToArcGIS_spec_witness : geojsonTypeToArcGIS "Circle" = none :=
  geojsonTypeToArcGIS_spec.2.2.2.2.2.2 "Circle" (by decide) (by decide) (by decide)
    (by decide) (by decide) (by decide)

/-! ## C9: an erroring attribution lookup leaves the map state untouched -/

/-- C9: when the jsonp lookup hands the getAttributionData callback a
truthy error, the callback returns before touching the map, so the whole
map state, and in particular the previously stored attribution list, is
exactly what it was. -/
theorem getAttributionDataCallback_error_noop (attributions : AttributionsResponse)
    (m : MapState) :
    _getAttributionDataCallback true attributions m = m
    ∧ (_getAttributionDataCallback true attributions m).esriAttributions =
        m.esriAttributions :=
  ⟨rfl, rfl⟩

/-- C9 witness: the erroring callback at a concrete payload and map. -/
theorem getAttributionDataCallback_error_noop_witness :
    _getAttributionDataCallback true ⟨[]⟩ ⟨true, ⟨⟨0, 0⟩, ⟨1, 1⟩⟩, 3, none, []⟩ =
      ⟨true, ⟨⟨0, 0⟩, ⟨1, 1⟩⟩, 3, none, []⟩ :=
  (getAttributionDataCallback_error_noop ⟨[]⟩ ⟨true, ⟨⟨0, 0⟩, ⟨1, 1⟩⟩, 3, none, []⟩).1

/-! ## C10: responseToFeatureCollection needs a features or results list -/

/-- C10: responseToFeatureCollection reads the length of
(features || results) before anything else, so a response carrying
neither key throws a TypeError; a present but empty list yields a
FeatureCollection with an empty features array without error. -/
theorem responseToFeatureCollection_totality :
    (∀ (response : Response) (idAttribute : Option String),
      response.features = none → response.results = none →
      responseToFeatureCollection response idAttribute =
        Except.error "TypeError: cannot read property length of undefined")
    ∧ (∀ (response : Response) (idAttribute : Option String),
      response.features = some [] →
      responseToFeatureCollection response idAttribute =
        Except.ok ⟨"FeatureCollection", []⟩) := by
  constructor
  · intro r ia h1 h2
    simp only [responseToFeatureCollection, jsOrList, h1, h2]
  · intro r ia h
    simp only [responseToFeatureCollection, jsOrList, h]
    simp

/-- C10 witness: both branches at concrete responses. -/
theorem responseToFeatureCollection_totality_witness :
    responseToFeatureCollection ⟨none, none, none, none⟩ none =
      Except.error "TypeError: cannot read property length of undefined"
    ∧ responseToFeatureCollection ⟨none, none, some [], none⟩ none =
        Except.ok ⟨"FeatureCollection", []⟩ :=
  ⟨responseToFeatureCollection_totality.1 _ none rfl rfl,
   responseToFeatureCollection_totality.2 _ none rfl⟩

/-! ## C3: responseToFeatureCollection count and reverse order -/

/-- C3: on a response whose feature list (features, else results) has N
elements the result is a FeatureCollection whose features array has
exactly N elements, and output element i is the per-feature conversion of
input element N-1-i (the loop iterates the raw list in reverse). -/
theorem responseToFeatureCollection_spec (response : Response) (idAttribute : Option String)
    (l : List ArcFeature) (h : jsOrList response.features response.results = some l) :
    responseToFeatureCollection response idAttribute =
      Except.ok ⟨"FeatureCollection", l.reverse.map (perFeatureConv response idAttribute)⟩
    ∧ (l.reverse.map (perFeatureConv response idAttribute)).length = l.length
    ∧ ∀ i : ℕ, i < l.length →
        (l.reverse.map (perFeatureConv response idAttribute))[i]? =
          (l[l.length - 1 - i]?).map (perFeatureConv response idAttribute) := by
  refine ⟨?_, by simp, ?_⟩
  · simp only [responseToFeatureCollection, h]
    rcases l with _ | ⟨f, fs⟩
    · simp
    · simp
  · intro i hi
    rw [List.getElem?_map, List.getElem?_reverse (by simpa using hi)]

/-- C3 witness: a two-feature response converts to a two-feature
collection, in reverse order, each feature paired with its resolved
identifier. -/
theorem responseToFeatureCollection_spec_witness :
    responseToFeatureCollection ⟨none, none, some [⟨["A"]⟩, ⟨["FID"]⟩], none⟩ none =
      Except.ok ⟨"FeatureCollection",
        [arcgisToGeoJSON ⟨["FID"]⟩ (some "FID"), arcgisToGeoJSON ⟨["A"]⟩ none]⟩ := by
  have h := responseToFeatureCollection_spec ⟨none, none, some [⟨["A"]⟩, ⟨["FID"]⟩], none⟩
    none [⟨["A"]⟩, ⟨["FID"]⟩] rfl
  rw [h.1]
  rfl

/-! ## C4: identifier field resolution order -/

lemma firstOIDField_of_forall_ne {fs : List Field}
    (h : ∀ f ∈ fs, f.type ≠ "esriFieldTypeOID") : firstOIDField fs = none := by
  induction fs with
  | nil => rfl
  | cons f rest ih =>
      simp only [firstOIDField]
      rw [if_neg (h f (by simp))]
      exact ih (fun g hg => h g (by simp [hg]))

lemma firstOIDField_append {fs₁ fs₂ : List Field} {fld : Field}
    (h₁ : ∀ f ∈ fs₁, f.type ≠ "esriFieldTypeOID") (h₂ : fld.type = "esriFieldTypeOID") :
    firstOIDField (fs₁ ++ fld :: fs₂) = some fld.name := by
  induction fs₁ with
  | nil => simp [firstOIDField, h₂]
  | cons f rest ih =>
      simp only [List.cons_append, firstOIDField]
      rw [if_neg (h₁ f (by simp))]
      exact ih (fun g hg => h₁ g (by simp [hg]))

lemma firstKnownNameField_of_forall_false {fs : List Field}
    (h : ∀ f ∈ fs, knownFieldNames f.name = false) : firstKnownNameField fs = none := by
  induction fs with
  | nil => rfl
  | cons f rest ih =>
      simp only [firstKnownNameField]
      rw [if_neg (by simp [h f (by simp)])]
      exact ih (fun g hg => h g (by simp [hg]))

lemma firstKnownNameField_append {fs₁ fs₂ : List Field} {fld : Field}
    (h₁ : ∀ f ∈ fs₁, knownFieldNames f.name = false) (h₂ : knownFieldNames fld.name = true) :
    firstKnownNameField (fs₁ ++ fld :: fs₂) = some fld.name := by
  induction fs₁ with
  | nil => simp [firstKnownNameField, h₂]
  | cons f rest ih =>
      simp only [List.cons_append, firstKnownNameField]
      rw [if_neg (by simp [h₁ f (by simp)])]
      exact ih (fun g hg => h₁ g (by simp [hg]))

/-- C4: the identifier field is resolved first-match-wins in the order:
(a) a truthy objectIdFieldName; (b) the name of the first
esriFieldTypeOID-typed field; (c) the first field whose name matches the
case-insensitive OBJECTID|FID|OID|ID pattern; when the field metadata
matches nothing (or is absent) the response-level resolution returns
undefined, a normal outcome; and (d) when no metadata is present at all,
responseToFeatureCollection falls back to scanning each feature's own
attribute keys against the same pattern. -/
theorem findIdAttribute_resolution :
    (∀ (r : Response) (s : String), r.objectIdFieldName = some s → s ≠ "" →
      _findIdAttributeFromResponse r = some s)
    ∧ (∀ (r : Response) (fs₁ fs₂ : List Field) (fld : Field),
        truthyStr r.objectIdFieldName = false →
        r.fields = some (fs₁ ++ fld :: fs₂) →
        (∀ f ∈ fs₁, f.type ≠ "esriFieldTypeOID") →
        fld.type = "esriFieldTypeOID" → fld.name ≠ "" →
        _findIdAttributeFromResponse r = some fld.name)
    ∧ (∀ (r : Response) (fs₁ fs₂ : List Field) (fld : Field),
        truthyStr r.objectIdFieldName = false →
        r.fields = some (fs₁ ++ fld :: fs₂) →
        (∀ f ∈ fs₁ ++ fld :: fs₂, f.type ≠ "esriFieldTypeOID") →
        (∀ f ∈ fs₁, knownFieldNames f.name = false) →
        knownFieldNames fld.name = true →
        _findIdAttributeFromResponse r = some fld.name)
    ∧ (∀ (r : Response) (fs : List Field),
        truthyStr r.objectIdFieldName = false →
        r.fields = some fs →
        (∀ f ∈ fs, f.type ≠ "esriFieldTypeOID") →
        (∀ f ∈ fs, knownFieldNames f.name = false) →
        _findIdAttributeFromResponse r = none)
    ∧ (∀ r : Response, truthyStr r.objectIdFieldName = false → r.fields = none →
        _findIdAttributeFromResponse r = none)
    ∧ (∀ (r : Response) (l : List ArcFeature),
        truthyStr r.objectIdFieldName = false → r.fields = none →
        jsOrList r.features r.results = some l →
        responseToFeatureCollection r none =
          Except.ok ⟨"FeatureCollection",
            l.reverse.map (fun f => arcgisToGeoJSON f (_findIdAttributeFromFeature f))⟩) := by
  have hdirect : ∀ (r : Response) (s : String), r.objectIdFieldName = some s → s ≠ "" →
      _findIdAttributeFromResponse r = some s := by
    intro r s h hne
    simp [_findIdAttributeFromResponse, h, truthyStr, hne]
  have hnometa : ∀ r : Response, truthyStr r.objectIdFieldName = false → r.fields = none →
      _findIdAttributeFromResponse r = none := by
    intro r hfalsy hfields
    simp [_findIdAttributeFromResponse, hfalsy, hfields]
  refine ⟨hdirect, ?_, ?_, ?_, hnometa, ?_⟩
  · intro r fs₁ fs₂ fld hfalsy hfields h₁ h₂ hne
    simp only [_findIdAttributeFromResponse, hfalsy, hfields]
    rw [firstOIDField_append h₁ h₂]
    simp [truthyStr, hne]
  · intro r fs₁ fs₂ fld hfalsy hfields hnoOID h₁ h₂
    simp only [_findIdAttributeFromResponse, hfalsy, hfields]
    rw [firstOIDField_of_forall_ne hnoOID, firstKnownNameField_append h₁ h₂]
    simp [truthyStr]
  · intro r fs hfalsy hfields hnoOID hnoName
    simp only [_findIdAttributeFromResponse, hfalsy, hfields]
    rw [firstOIDField_of_forall_ne hnoOID, firstKnownNameField_of_forall_false hnoName]
    simp [truthyStr]
  · intro r l hfalsy hfields hl
    have he : _findIdAttributeFromResponse r = none := hnometa r hfalsy hfields
    simp only [responseToFeatureCollection, hl]
    have hconv : perFeatureConv r none =
        fun f => arcgisToGeoJSON f (_findIdAttributeFromFeature f) := by
      funext f
      simp [perFeatureConv, jsOrStr, truthyStr, he]
    rcases l with _ | ⟨f, fs⟩
    · simp
    · simp [hconv]

/-- C4 witness: the resolution chain at concrete responses, one per
priority level, plus the per-feature fallback. -/
theorem findIdAttribute_resolution_witness :
    _findIdAttributeFromResponse ⟨some "GLOBALID", none, none, none⟩ = some "GLOBALID"
    ∧ _findIdAttributeFromResponse
        ⟨none, some [⟨"name", "esriFieldTypeString"⟩, ⟨"objid", "esriFieldTypeOID"⟩],
         none, none⟩ = some "objid"
    ∧ _findIdAttributeFromResponse
        ⟨none, some [⟨"name", "esriFieldTypeString"⟩, ⟨"FID", "esriFieldTypeInteger"⟩],
         none, none⟩ = some "FID"
    ∧ _findIdAttributeFromResponse
        ⟨none, some [⟨"name", "esriFieldTypeString"⟩], none, none⟩ = none
    ∧ responseToFeatureCollection ⟨none, none, some [⟨["shape", "oid"]⟩], none⟩ none =
        Except.ok ⟨"FeatureCollection", [arcgisToGeoJSON ⟨["shape", "oid"]⟩ (some "oid")]⟩ := by
  refine ⟨?_, ?_, ?_, ?_, ?_⟩
  · exact findIdAttribute_resolution.1 _ "GLOBALID" rfl (by decide)
  · exact findIdAttribute_resolution.2.1 _ [⟨"name", "esriFieldTypeString"⟩] []
      ⟨"objid", "esriFieldTypeOID"⟩ rfl rfl (by decide) rfl (by decide)
  · exact findIdAttribute_resolution.2.2.1 _ [⟨"name", "esriFieldTypeString"⟩] []
      ⟨"FID", "esriFieldTypeInteger"⟩ rfl rfl (by decide) (by decide) (by decide)
  · exact findIdAttribute_resolution.2.2.2.1 _ [⟨"name", "esriFieldTypeString"⟩] rfl rfl
      (by decide) (by decide)
  · have h := findIdAttribute_resolution.2.2.2.2.2 ⟨none, none, some [⟨["shape", "oid"]⟩], none⟩
      [⟨["shape", "oid"]⟩] rfl rfl rfl
    rw [h]
    rfl

/-! ## C5: setGeometry recognition cascade -/

/-- C5 counterexample: an L.GeoJSON layer (a feature-collection-like
layer, hence a recognized shape per the claim) whose single feature
carries a MultiPoint geometry makes setGeometry warn and return
undefined instead of producing a parameter pair, because the final check
only admits Point, LineString, Polygon and MultiPolygon. -/
theorem setGeometry_layer_counterexample :
    _setGeometry (GeomInput.geojsonLayer ⟨"MultiPoint", Coords.arr []⟩) =
      SetGeometryResult.warnedUndefined := rfl

/-- C5 (amended): setGeometry warns and returns undefined exactly on the
inputs that are not accepted, where accepted means: a bounds, a
point-like input (marker or LatLng), or a layer/Feature/raw-geometry
input whose underlying GeoJSON geometry type is Point, LineString,
Polygon or MultiPolygon; every accepted input produces a
{geometry, geometryType} pair (and in particular the warning-and-
undefined path never throws, it is the value warnedUndefined). -/
theorem setGeometry_accepted_iff :
    (∀ g : GeomInput,
      _setGeometry g = SetGeometryResult.warnedUndefined ↔ acceptedGeometryInput g = false)
    ∧ (∀ g : GeomInput, acceptedGeometryInput g = true →
        _setGeometry g ≠ SetGeometryResult.warnedUndefined) := by
  have key : ∀ g : GeomInput,
      _setGeometry g = SetGeometryResult.warnedUndefined ↔ acceptedGeometryInput g = false := by
    intro g
    cases g with
    | bounds b => simp [_setGeometry, acceptedGeometryInput]
    | marker p => simp [_setGeometry, acceptedGeometryInput, finishGeoJSON, pointGeoJSON]
    | latlngPoint p => simp [_setGeometry, acceptedGeometryInput, finishGeoJSON, pointGeoJSON]
    | geojsonLayer g =>
        by_cases h : g.type = "Point" ∨ g.type = "LineString" ∨
            g.type = "Polygon" ∨ g.type = "MultiPolygon"
        · simp [_setGeometry, acceptedGeometryInput, finishGeoJSON, h]
        · simp [_setGeometry, acceptedGeometryInput, finishGeoJSON, h]
    | vectorLayer g =>
        by_cases h : g.type = "Point" ∨ g.type = "LineString" ∨
            g.type = "Polygon" ∨ g.type = "MultiPolygon"
        · simp [_setGeometry, acceptedGeometryInput, finishGeoJSON, h]
        · simp [_setGeometry, acceptedGeometryInput, finishGeoJSON, h]
    | featureObj g =>
        by_cases h : g.type = "Point" ∨ g.type = "LineString" ∨
            g.type = "Polygon" ∨ g.type = "MultiPolygon"
        · simp [_setGeometry, acceptedGeometryInput, finishGeoJSON, h]
        · simp [_setGeometry, acceptedGeometryInput, finishGeoJSON, h]
    | geomObj g =>
        by_cases h : g.type = "Point" ∨ g.type = "LineString" ∨
            g.type = "Polygon" ∨ g.type = "MultiPolygon"
        · simp [_setGeometry, acceptedGeometryInput, finishGeoJSON, h]
        · simp [_setGeometry, acceptedGeometryInput, finishGeoJSON, h]
  refine ⟨key, fun g hg hw => ?_⟩
  rw [key g, hg] at hw
  simp at hw

/-- C5 witness: a marker input is accepted and does not take the
warning path. -/
theorem setGeometry_accepted_iff_witness :
    _setGeometry (GeomInput.marker ⟨3, 4⟩) ≠ SetGeometryResult.warnedUndefined :=
  setGeometry_accepted_iff.2 (GeomInput.marker ⟨3, 4⟩) rfl

/-! ## C7: cleanUrl trims, appends one slash, and is idempotent -/

lemma dropWhile_head_false {α : Type} {p : α → Bool} {l : List α} {c : α} {rest : List α}
    (h : l.dropWhile p = c :: rest) : p c = false := by
  induction l with
  | nil => simp at h
  | cons a as ih =>
      rw [List.dropWhile_cons] at h
      split at h
      · exact ih h
      · next hpa =>
          obtain ⟨rfl, -⟩ := List.cons.inj h
          simpa using hpa

lemma rdropWhile_head {α : Type} {p : α → Bool} {l : List α} {c : α} {rest : List α}
    (h : l.rdropWhile p = c :: rest) : ∃ t, l = c :: (rest ++ t) := by
  obtain ⟨t, ht⟩ := List.rdropWhile_prefix p l
  rw [h] at ht
  exact ⟨t, by rw [← ht]; simp⟩

lemma jsTrim_head_false {url : List Char} {c : Char} {rest : List Char}
    (h : jsTrim url = c :: rest) : Char.isWhitespace c = false := by
  unfold jsTrim at h
  obtain ⟨t, ht⟩ := rdropWhile_head h
  exact dropWhile_head_false ht

lemma cleanUrlChars_getLast (url : List Char) : (cleanUrlChars url).getLast? = some '/' := by
  simp only [cleanUrlChars]
  split
  · simp
  · next h => exact not_ne_iff.mp h

lemma cleanUrlChars_head_false (url : List Char) {c : Char} {cs : List Char}
    (h : cleanUrlChars url = c :: cs) : Char.isWhitespace c = false := by
  rcases hu : jsTrim url with _ | ⟨d, ds⟩
  · simp only [cleanUrlChars, hu] at h
    simp at h
    obtain ⟨rfl, -⟩ := h
    decide
  · have hd := jsTrim_head_false hu
    simp only [cleanUrlChars, hu] at h
    split at h
    · rw [List.cons_append] at h
      obtain ⟨rfl, -⟩ := List.cons.inj h
      exact hd
    · obtain ⟨rfl, -⟩ := List.cons.inj h
      exact hd

lemma jsTrim_cleanUrlChars (url : List Char) :
    jsTrim (cleanUrlChars url) = cleanUrlChars url := by
  have hlast : (cleanUrlChars url).getLast? = some '/' := cleanUrlChars_getLast url
  have hdrop : (cleanUrlChars url).dropWhile Char.isWhitespace = cleanUrlChars url := by
    rcases hv : cleanUrlChars url with _ | ⟨c, cs⟩
    · rfl
    · rw [List.dropWhile_cons]
      simp [cleanUrlChars_head_false url hv]
  have hr : (cleanUrlChars url).rdropWhile Char.isWhitespace = cleanUrlChars url := by
    rw [List.rdropWhile_eq_self_iff]
    intro hne
    have h2 := List.getLast?_eq_getLast (cleanUrlChars url) hne
    rw [hlast] at h2
    rw [← Option.some.inj h2]
    decide
  rw [jsTrim, hdrop, hr]

lemma cleanUrlChars_idem (url : List Char) :
    cleanUrlChars (cleanUrlChars url) = cleanUrlChars url := by
  have h2 := cleanUrlChars_getLast url
  have h1 := jsTrim_cleanUrlChars url
  generalize hv : cleanUrlChars url = v at h1 h2
  rw [cleanUrlChars, h1, h2]
  simp

/-- C7: cleanUrl trims surrounding whitespace and guarantees exactly one
trailing slash, on the two spec examples, and is idempotent on every
input string. -/
theorem cleanUrl_spec :
    cleanUrl " http://x " = "http://x/"
    ∧ cleanUrl "http://x/" = "http://x/"
    ∧ ∀ url : String, cleanUrl (cleanUrl url) = cleanUrl url := by
  refine ⟨by decide, by decide, ?_⟩
  intro url
  show (⟨cleanUrlChars (cleanUrl url).data⟩ : String) = ⟨cleanUrlChars url.data⟩
  rw [show (cleanUrl url).data = cleanUrlChars url.data from rfl, cleanUrlChars_idem]

/-- C7 witness: idempotence at a concrete url. -/
theorem cleanUrl_spec_witness : cleanUrl (cleanUrl "a b") = cleanUrl "a b" :=
  cleanUrl_spec.2.2 "a b"

/-! ## C8: attribution deduplication and separator trimming -/

/-- C8: when the cached list holds two records that both intersect the
wrapped view bounds, whose zoom ranges both contain the current zoom and
that carry the same (nonempty) attribution text, the string computed by
updateMapAttribution is exactly that text: it appears once (the second
record is suppressed by the substring check against the string built so
far) and the leading ", " separator has been removed. -/
theorem updateMapAttribution_dedup (m : MapState) (a1 a2 : Attribution) (t : List Char)
    (hctl : m.hasAttributionControl = true)
    (hattrs : m.esriAttributions = some [a1, a2])
    (ht1 : a1.attribution = t) (ht2 : a2.attribution = t) (htne : t ≠ [])
    (hint1 : intersects a1.bounds (wrappedBoundsOf m) = true)
    (hz1a : a1.minZoom ≤ m.zoom) (hz1b : m.zoom ≤ a1.maxZoom)
    (hint2 : intersects a2.bounds (wrappedBoundsOf m) = true)
    (hz2a : a2.minZoom ≤ m.zoom) (hz2b : m.zoom ≤ a2.maxZoom) :
    _updateMapAttribution m = some t := by
  have step1 : jsMatch t [] = false := by
    rw [jsMatch]
    simp only [decide_eq_false_iff_not]
    intro hinf
    exact htne (List.sublist_nil.mp hinf.sublist)
  have step2 : jsMatch t (',' :: ' ' :: t) = true := by
    rw [jsMatch, decide_eq_true_eq]
    exact ⟨[',', ' '], [], by simp⟩
  have e1 : attributionsString [a1, a2] (wrappedBoundsOf m) m.zoom = ',' :: ' ' :: t := by
    simp [attributionsString, ht1, ht2, step1, step2, hint1, hint2, hz1a, hz1b, hz2a, hz2b]
  simp only [_updateMapAttribution, hattrs, hctl, if_true, e1]
  rfl

/-- C8 witness: a map carrying two records with the text "Esri", both
covering the current view and zoom, yields the single unprefixed
"Esri". -/
theorem updateMapAttribution_dedup_witness :
    _updateMapAttribution ⟨true, ⟨⟨0, 180⟩, ⟨0, 180⟩⟩, 5,
      some [⟨"Esri".data, 1, ⟨⟨-10, 170⟩, ⟨10, 180⟩⟩, 0, 10⟩,
            ⟨"Esri".data, 2, ⟨⟨-20, 160⟩, ⟨20, 180⟩⟩, 1, 8⟩], []⟩ = some "Esri".data :=
  updateMapAttribution_dedup _ _ _ _ rfl rfl rfl rfl (by decide) (by decide) (by decide)
    (by decide) (by decide) (by decide) (by decide)

end EsriLeaflet
